import Mathlib

/-!
Verification of the frame-lifecycle / swapchain / pipeline-builder core of a
minimal Vulkan renderer (files `application.h`, `application.cpp`).  The C++
code is shallowly embedded: Vulkan handles become `Option Nat` (with
`Option.none` playing the role of a null handle), the enum values the code
mentions become small inductive types, and the stateful render tick becomes a
pure function from an environment (the results the driver returns this tick)
and an application state to a new state together with an ordered trace of the
actions the tick performed.
-/

namespace ModernVulkan

/-! Vulkan enumeration values used by the program.  Only the constructors that
the source mentions (plus the alternatives the spec talks about) are included. -/

inductive VkFormat where
  | b8g8r8a8Srgb      -- VK_FORMAT_B8G8R8A8_SRGB
  | d32Sfloat         -- VK_FORMAT_D32_SFLOAT
  | r8g8b8a8Srgb      -- VK_FORMAT_R8G8B8A8_SRGB
  deriving DecidableEq, Repr

inductive VkColorSpace where
  | srgbNonlinear     -- VK_COLORSPACE_SRGB_NONLINEAR_KHR
  deriving DecidableEq, Repr

inductive VkPresentMode where
  | fifo              -- VK_PRESENT_MODE_FIFO_KHR
  | mailbox
  | immediate
  deriving DecidableEq, Repr

inductive VkCullMode where
  | noneCull          -- VK_CULL_MODE_NONE
  | back              -- VK_CULL_MODE_BACK_BIT
  | front
  deriving DecidableEq, Repr

inductive VkFrontFace where
  | clockwise         -- VK_FRONT_FACE_CLOCKWISE
  | counterClockwise
  deriving DecidableEq, Repr

inductive VkCompareOp where
  | less              -- VK_COMPARE_OP_LESS
  | lessOrEqual
  | greater
  | always
  deriving DecidableEq, Repr

inductive VkPolygonMode where
  | fill              -- VK_POLYGON_MODE_FILL
  | line
  deriving DecidableEq, Repr

/-! Fixed-function pipeline state, from `Application::createGraphicsPipeline`
(`application.cpp` lines 646-801).  Float-valued fields (`lineWidth`) are
omitted; every other field the claims mention is carried verbatim. -/

structure VkPipelineDepthStencilState where
  depthTestEnable : Bool
  depthWriteEnable : Bool
  depthCompareOp : VkCompareOp
  stencilTestEnable : Bool
  deriving DecidableEq, Repr

structure VkPipelineRasterizationState where
  polygonMode : VkPolygonMode
  cullMode : VkCullMode
  frontFace : VkFrontFace
  deriving DecidableEq, Repr

/-- The `depthStencilInfo` struct built in `Application::createGraphicsPipeline`
(`application.cpp` lines 680-687). -/
def depthStencilInfo : VkPipelineDepthStencilState :=
  { depthTestEnable := true
    depthWriteEnable := true
    depthCompareOp := VkCompareOp.less
    stencilTestEnable := false }

/-- The `rasterInfo` struct built in `Application::createGraphicsPipeline`
(`application.cpp` lines 701-709).  The source sets
`.cullMode = VK_CULL_MODE_NONE`; the line `.cullMode = VK_CULL_MODE_BACK_BIT`
is present in the source but commented out. -/
def rasterInfo : VkPipelineRasterizationState :=
  { polygonMode := VkPolygonMode.fill
    cullMode := VkCullMode.noneCull
    frontFace := VkFrontFace.clockwise }

/-- The `Pipeline` struct (`application.h` lines 18-22): a pipeline layout and
a pipeline handle, both null-initialised. -/
structure Pipeline where
  layout : Option Nat := Option.none
  handle : Option Nat := Option.none
  deriving DecidableEq, Repr

/-- `Application::createGraphicsPipeline` (`application.cpp` lines 646-801),
abstracted over the results of the two fallible driver calls:
`layoutResult` is the handle produced by `vkCreatePipelineLayout` (`none` on
failure, lines 772-776) and `pipelineResult` the handle produced by
`vkCreateGraphicsPipelines` (`none` on failure, lines 795-799).  The value
returned is the `Pipeline` the function returns together with the list of
objects the call created and the list of objects it destroyed before
returning.  The source contains no destroy call on any path of this function,
so the destroyed list is always empty. -/
def createGraphicsPipeline (layoutResult pipelineResult : Option Nat) :
    Pipeline × List Nat × List Nat :=
  match layoutResult with
  | Option.none => ({ layout := Option.none, handle := Option.none }, [], [])
  | Option.some l =>
    match pipelineResult with
    | Option.none => ({ layout := Option.none, handle := Option.none }, [l], [])
    | Option.some p => ({ layout := Option.some l, handle := Option.some p }, [l, p], [])

/-! Swapchain manager: `Application::createSwapchain` and
`Application::destroySwapchain` (`application.cpp` lines 440-587). -/

/-- The swapchain-related members of `Application` (`application.h` lines
56-66, extended with the `renderCompleteSemaphores` vector that
`application.cpp` uses).  Handles are `Option Nat`; vectors are lists of
handles. -/
structure SwapchainState where
  swapchainImageViews : List Nat
  renderCompleteSemaphores : List Nat
  swapchain : Option Nat
  depthImage : Option Nat
  depthImageView : Option Nat
  depthImageAllocation : Option Nat
  deriving DecidableEq, Repr

/-- A release of one GPU object performed by `destroySwapchain`. -/
inductive Release where
  | imageView (h : Nat)                    -- vkDestroyImageView on a swapchain view
  | semaphore (h : Nat)                    -- vkDestroySemaphore on a render-complete semaphore
  | swapchainHandle (h : Nat)              -- vkDestroySwapchainKHR
  | depthView (h : Nat)                    -- vkDestroyImageView on the depth view
  | depthImageAndAllocation (img alloc : Nat)  -- vmaDestroyImage
  deriving DecidableEq, Repr

/-- `Application::destroySwapchain` (`application.cpp` lines 559-587):
destroys and clears the image views, destroys and clears the render-complete
semaphores, destroys the swapchain handle if non-null and nulls it, and — only
if the depth image view is non-null — destroys the depth view and the depth
image with its allocation, nulling the view.  The source nulls
`depthImageView` but leaves `depthImage` and `depthImageAllocation`
untouched.  Returns the new state and the releases performed, in order. -/
def destroySwapchain (s : SwapchainState) : SwapchainState × List Release :=
  let viewReleases := s.swapchainImageViews.map Release.imageView
  let semReleases := s.renderCompleteSemaphores.map Release.semaphore
  let (swapchainAfter, swapchainReleases) :=
    match s.swapchain with
    | Option.some h => (Option.none, [Release.swapchainHandle h])
    | Option.none => (Option.none, ([] : List Release))
  let (depthViewAfter, depthReleases) :=
    match s.depthImageView with
    | Option.some v =>
        (Option.none,
         [Release.depthView v,
          Release.depthImageAndAllocation (s.depthImage.getD 0)
            (s.depthImageAllocation.getD 0)])
    | Option.none => (Option.none, ([] : List Release))
  ({ swapchainImageViews := []
     renderCompleteSemaphores := []
     swapchain := swapchainAfter
     depthImage := s.depthImage
     depthImageView := depthViewAfter
     depthImageAllocation := s.depthImageAllocation },
   viewReleases ++ semReleases ++ swapchainReleases ++ depthReleases)

/-! Swapchain creation.  `Application::createSwapchain` builds its create-info
structures unconditionally before the driver calls; the model below records
those structures together with the per-image resources of the success path.
The images handed back by `vkGetSwapchainImagesKHR`, and the handles the
driver returns for each created view and semaphore, are oracle parameters. -/

structure VkSurfaceCapabilities where
  minImageCount : Nat
  deriving DecidableEq, Repr

structure VkExtent2D where
  width : Nat
  height : Nat
  deriving DecidableEq, Repr

structure VkExtent3D where
  width : Nat
  height : Nat
  depth : Nat
  deriving DecidableEq, Repr

/-- The fields of `VkSwapchainCreateInfoKHR` that the source sets
(`application.cpp` lines 452-465). -/
structure VkSwapchainCreateInfo where
  minImageCount : Nat
  imageFormat : VkFormat
  imageColorSpace : VkColorSpace
  imageExtent : VkExtent2D
  imageArrayLayers : Nat
  presentMode : VkPresentMode
  deriving DecidableEq, Repr

/-- The fields of the depth image's `VkImageCreateInfo` that the source sets
(`application.cpp` lines 517-529). -/
structure VkImageCreateInfo where
  format : VkFormat
  extent : VkExtent3D
  mipLevels : Nat
  arrayLayers : Nat
  deriving DecidableEq, Repr

/-- The depth image's `VmaAllocationCreateInfo` (`application.cpp` lines
531-535): the flag field carries `VMA_ALLOCATION_CREATE_DEDICATED_MEMORY_BIT`. -/
structure VmaAllocationCreateInfo where
  dedicatedMemory : Bool
  deriving DecidableEq, Repr

/-- Everything `Application::createSwapchain` builds on its success path. -/
structure SwapchainCreation where
  swapchainInfo : VkSwapchainCreateInfo
  swapchainImageViews : List Nat
  renderCompleteSemaphores : List Nat
  depthCreateInfo : VkImageCreateInfo
  depthAllocInfo : VmaAllocationCreateInfo
  deriving DecidableEq, Repr

/-- The compile-time constant `Application::swapchainFormat`
(`application.h` line 35). -/
def swapchainFormat : VkFormat := VkFormat.b8g8r8a8Srgb

/-- The compile-time constant `Application::depthFormat`
(`application.h` line 36). -/
def depthFormat : VkFormat := VkFormat.d32Sfloat

/-- `Application::createSwapchain` (`application.cpp` lines 440-557), success
path.  `caps` is what `vkGetPhysicalDeviceSurfaceCapabilitiesKHR` reports,
`images` is the list of images `vkGetSwapchainImagesKHR` returns, and
`newView` / `newSemaphore` give the handle the driver returns when a view
(resp. a render-complete semaphore) is created for a given image.  One view
and one semaphore are created per swapchain image (the loops at lines 481-502
and 505-514); the depth image is created with the fixed `depthFormat`, an
extent equal to the requested one with depth 1, and a dedicated allocation. -/
def createSwapchain (caps : VkSurfaceCapabilities) (width height : Nat)
    (images : List Nat) (newView newSemaphore : Nat → Nat) : SwapchainCreation :=
  { swapchainInfo :=
      { minImageCount := caps.minImageCount
        imageFormat := swapchainFormat
        imageColorSpace := VkColorSpace.srgbNonlinear
        imageExtent := { width := width, height := height }
        imageArrayLayers := 1
        presentMode := VkPresentMode.fifo }
    swapchainImageViews := images.map newView
    renderCompleteSemaphores := images.map newSemaphore
    depthCreateInfo :=
      { format := depthFormat
        extent := { width := width, height := height, depth := 1 }
        mipLevels := 1
        arrayLayers := 1 }
    depthAllocInfo := { dedicatedMemory := true } }

/-! Frame scheduler: `Application::render` (`application.cpp` lines 883-1159)
and the event handling of `Application::run` (lines 124-152). -/

/-- The compile-time constant `Application::MaxFramesInFlight`
(`application.h` line 34). -/
def MaxFramesInFlight : Nat := 2

/-- Modulus of the C++ `uint32_t` type (the type of `frameCounter`, whose
increment wraps). -/
def U32 : Nat := 2 ^ 32

/-- Modulus of the C++ `uint64_t` type (the type of `timelineValue`,
`frameId` and `waitForId`). -/
def U64 : Nat := 2 ^ 64

/-- C++ `uint64_t` subtraction `a - b`, which wraps modulo `2 ^ 64`
(used for `waitForId = frameId - MaxFramesInFlight` at
`application.cpp` line 897). -/
def u64sub (a b : Nat) : Nat := (a % U64 + (U64 - b % U64)) % U64

/-- Result of `vkAcquireNextImageKHR` as the source distinguishes it
(`application.cpp` lines 917-929): success and suboptimal also deliver the
acquired image index through the out-parameter. -/
inductive AcquireResult where
  | success (imageIndex : Nat)
  | outOfDate            -- VK_ERROR_OUT_OF_DATE_KHR
  | suboptimal (imageIndex : Nat)  -- VK_SUBOPTIMAL_KHR
  deriving DecidableEq, Repr

/-- Result of `vkQueuePresentKHR` (returned by the driver; the source ignores
it at `application.cpp` line 1158). -/
inductive PresentResult where
  | success
  | outOfDate
  | suboptimal
  deriving DecidableEq, Repr

/-- What the driver returns during one render tick. -/
structure Env where
  acquire : AcquireResult
  presentResult : PresentResult
  deriving DecidableEq, Repr

/-- The members of `Application` that the render loop reads and writes
(`application.h` lines 38-42 and 60-62, plus the `frameCounter` member used
by `application.cpp` line 894).  `swapchainGeneration` counts completed
destroy-and-recreate cycles so rebuilds can be stated; it stands for the
identity of the current swapchain, not a C++ variable. -/
structure AppState where
  requireSwapchainRecreate : Bool
  width : Nat
  height : Nat
  frameCounter : Nat       -- uint32_t: increments wrap modulo U32
  timelineValue : Nat      -- uint64_t: one increment per tick, wrap unreachable
  swapchainGeneration : Nat
  running : Bool
  deriving DecidableEq, Repr

/-- One observable action of a render tick, in program order. -/
inductive Event where
  | deviceWaitIdle                             -- vkDeviceWaitIdle (line 888)
  | destroySwapchainAction                     -- destroySwapchain() (line 889)
  | createSwapchainAction (width height : Nat) -- createSwapchain(width, height) (line 890)
  | waitTimeline (value : Nat)                 -- vkWaitSemaphores on the timeline (line 906)
  | resetCommandPool (slot : Nat)              -- vkResetCommandPool for the slot (line 910)
  | acquireImage (result : AcquireResult)      -- vkAcquireNextImageKHR (line 917)
  | record (slot : Nat)                        -- vkBeginCommandBuffer .. vkEndCommandBuffer (lines 937-1105)
  | submit (slot : Nat) (timelineSignalValue : Nat) -- vkQueueSubmit2, signalling the timeline to frameId (lines 1116-1145)
  | present (imageIndex : Nat) (result : PresentResult) -- vkQueuePresentKHR (line 1158)
  deriving DecidableEq, Repr

/-- Recording, submission and presentation of one frame (`application.cpp`
lines 931-1158): the command buffer of the given slot is recorded, submitted
with a timeline-semaphore signal to `frameId`, and the acquired image is
presented.  The result of `vkQueuePresentKHR` is returned by the driver but
ignored by the source, so it appears in the trace only. -/
def tickBody (slot frameId imageIndex : Nat) (presentRes : PresentResult) :
    List Event :=
  [Event.record slot, Event.submit slot frameId,
   Event.present imageIndex presentRes]

/-- `Application::render` (`application.cpp` lines 883-1159), one tick.
Line-by-line: the deferred-rebuild check (886-892), the slot index from the
post-incremented `frameCounter` (894), the frame id from the pre-incremented
`timelineValue` (896), the wrapped `uint64_t` wait target (897), the CPU-side
timeline wait (899-906), the command-pool reset (910), the acquire and its
outcome handling (916-929), and recording/submit/present (931-1158). -/
def render (env : Env) (s : AppState) : AppState × List Event :=
  -- lines 886-892: deferred swapchain rebuild at the top of the tick
  let rebuildTrace : List Event :=
    if s.requireSwapchainRecreate then
      [Event.deviceWaitIdle, Event.destroySwapchainAction,
       Event.createSwapchainAction s.width s.height]
    else []
  let s :=
    if s.requireSwapchainRecreate then
      { s with swapchainGeneration := s.swapchainGeneration + 1,
               requireSwapchainRecreate := false }
    else s
  -- line 894: frameResIndex = frameCounter++ % MaxFramesInFlight
  let frameResIndex := s.frameCounter % MaxFramesInFlight
  let s := { s with frameCounter := (s.frameCounter + 1) % U32 }
  -- line 896: frameId = ++timelineValue
  let frameId := s.timelineValue + 1
  let s := { s with timelineValue := frameId }
  -- line 897: waitForId = frameId - MaxFramesInFlight (uint64_t arithmetic)
  let waitForId := u64sub frameId MaxFramesInFlight
  -- lines 899-917: wait on the timeline, reset the slot's pool, acquire
  let preRecord := rebuildTrace ++
    [Event.waitTimeline waitForId, Event.resetCommandPool frameResIndex,
     Event.acquireImage env.acquire]
  match env.acquire with
  | AcquireResult.outOfDate =>
      -- lines 920-924: flag the swapchain and abort the tick
      ({ s with requireSwapchainRecreate := true }, preRecord)
  | AcquireResult.suboptimal imageIndex =>
      -- lines 925-929: flag the swapchain but render this frame
      ({ s with requireSwapchainRecreate := true },
       preRecord ++ tickBody frameResIndex frameId imageIndex env.presentResult)
  | AcquireResult.success imageIndex =>
      (s, preRecord ++ tickBody frameResIndex frameId imageIndex env.presentResult)

/-- Platform events as `Application::run` distinguishes them
(`application.cpp` lines 135-149). -/
inductive SDLEvent where
  | quit
  | windowResized (width height : Nat)
  | other
  deriving DecidableEq, Repr

/-- One iteration of the event-poll body in `Application::run`
(`application.cpp` lines 136-149): a quit event clears `running`; a resize
event stores the new dimensions in `width` and `height` (and nothing else);
any other event is ignored. -/
def handleEvent (s : AppState) (e : SDLEvent) : AppState :=
  match e with
  | SDLEvent.quit => { s with running := false }
  | SDLEvent.windowResized w h => { s with width := w, height := h }
  | SDLEvent.other => s

/-- Modelled from the spec: the `frameCounter` member used by
`Application::render` is declared in a revision of `application.h` that is
not under `src/` (the header there predates it), so its initialiser is not in
the source.  The spec describes it as a separate counter for the slot index
alongside the timeline frame id; its initial value 0 is taken from that
description. -/
def initFrameCounter : Nat := 0

/-- The application state at startup: `requireSwapchainRecreate`, `width`,
`height` and `timelineValue` from the member initialisers of `application.h`
(lines 38-42, with `timelineValue = MaxFramesInFlight - 1`),
`frameCounter` from `initFrameCounter`. -/
def initState : AppState :=
  { requireSwapchainRecreate := false
    width := 1280
    height := 720
    frameCounter := initFrameCounter
    timelineValue := MaxFramesInFlight - 1
    swapchainGeneration := 0
    running := false }

/-- The initial value of the timeline semaphore: `createSyncResources`
(`application.cpp` lines 803-820) creates it with
`initialValue = timelineValue`, which still holds the member initialiser
`MaxFramesInFlight - 1` at that point. -/
def initialTimelineSemaphoreValue : Nat := MaxFramesInFlight - 1

/-- Iterated render ticks: the state after each tick feeds the next. -/
def runTicks (envs : List Env) (s : AppState) : AppState :=
  match envs with
  | [] => s
  | e :: rest => runTicks rest (render e s).1

/-- Does an event touch a frame slot's resources (reset its command pool,
record into its command buffer, or submit that buffer)? -/
def touchesFrameSlot : Event → Bool
  | Event.resetCommandPool _ => true
  | Event.record _ => true
  | Event.submit _ _ => true
  | _ => false

/-- Is an event a command-recording action? -/
def isRecord : Event → Bool
  | Event.record _ => true
  | _ => false

/-- Is an event a queue submission? -/
def isSubmit : Event → Bool
  | Event.submit _ _ => true
  | _ => false

/-- Is an event a present call? -/
def isPresent : Event → Bool
  | Event.present _ _ => true
  | _ => false

/-- Is an event an image-acquire call? -/
def isAcquire : Event → Bool
  | Event.acquireImage _ => true
  | _ => false

/-- The slot index a tick starting in state `s` uses
(`application.cpp` line 894). -/
def usedSlot (s : AppState) : Nat := s.frameCounter % MaxFramesInFlight

/-- The relation between the two per-tick counters that makes the slot index
agree with `frameId mod MaxFramesInFlight`. -/
def slotInvariant (s : AppState) : Prop :=
  s.frameCounter % MaxFramesInFlight = (s.timelineValue + 1) % MaxFramesInFlight

/-- A driver environment in which acquisition and presentation both succeed,
delivering image index 0. -/
def allSuccess : Env :=
  { acquire := AcquireResult.success 0, presentResult := PresentResult.success }

/-! Helper lemmas shared by several developments. -/

/-- The wrapped `uint64_t` subtraction agrees with natural subtraction when no
underflow occurs. -/
theorem u64sub_eq_sub (a b : Nat) (hb : b ≤ a) (ha : a < U64) :
    u64sub a b = a - b := by
  unfold u64sub
  rw [Nat.mod_eq_of_lt ha, Nat.mod_eq_of_lt (lt_of_le_of_lt hb ha)]
  have hbU : b ≤ U64 := le_of_lt (lt_of_le_of_lt hb ha)
  have : a + (U64 - b) = U64 + (a - b) := by omega
  rw [this, Nat.add_mod_left, Nat.mod_eq_of_lt (by omega)]

/-! C6.  The claim says the pipeline is built with back-face culling; the
source builds it with `VK_CULL_MODE_NONE` (the back-bit line is commented
out), so the claim is corrected: culling is disabled, while the front-face
winding, depth test, depth comparison and depth writes are as claimed. -/

/-- C6 counterexample: the rasterization state built by
`Application::createGraphicsPipeline` has cull mode `VK_CULL_MODE_NONE`, not
`VK_CULL_MODE_BACK_BIT`, so the pipeline is not configured with back-face
culling. -/
theorem cull_mode_is_not_back :
    rasterInfo.cullMode = VkCullMode.noneCull ∧
    rasterInfo.cullMode ≠ VkCullMode.back := by
  decide

/-- C6 (amended): the graphics pipeline is configured with culling disabled
(cull mode none) and clockwise front-face winding, and with the depth test
enabled using the less comparison and depth writes enabled. -/
theorem raster_and_depth_state_as_built :
    rasterInfo.cullMode = VkCullMode.noneCull ∧
    rasterInfo.frontFace = VkFrontFace.clockwise ∧
    depthStencilInfo.depthTestEnable = true ∧
    depthStencilInfo.depthCompareOp = VkCompareOp.less ∧
    depthStencilInfo.depthWriteEnable = true := by
  decide

/-! C5.  The claim says any sub-object creation failure releases every
partially-created object and returns the null sentinel.  The sentinel part
holds, but on pipeline-creation failure the already-created pipeline layout is
not released: no destroy call exists on any path of
`Application::createGraphicsPipeline`. -/

/-- C5 counterexample: when layout creation succeeds (handle 1) and pipeline
creation fails, the function returns the null sentinel but the created layout
is not among the destroyed objects — the partially-created object is not
released. -/
theorem pipeline_layout_not_released_on_failure :
    (createGraphicsPipeline (Option.some 1) Option.none).1 =
      { layout := Option.none, handle := Option.none } ∧
    (createGraphicsPipeline (Option.some 1) Option.none).2.1 = [1] ∧
    (createGraphicsPipeline (Option.some 1) Option.none).2.2 = [] ∧
    ¬ (∀ x ∈ (createGraphicsPipeline (Option.some 1) Option.none).2.1,
        x ∈ (createGraphicsPipeline (Option.some 1) Option.none).2.2) := by
  decide

/-- C5 (amended): if any sub-object creation fails during graphics-pipeline
construction, the builder returns the null/empty `Pipeline` sentinel, and the
caller can distinguish it from success by the null handle (as
`initializeVulkan` does at `application.cpp` line 204); however, on
pipeline-creation failure the already-created pipeline layout is not
released. -/
theorem createGraphicsPipeline_null_sentinel_on_failure
    (layoutResult pipelineResult : Option Nat) :
    ((layoutResult = Option.none ∨ pipelineResult = Option.none) →
      (createGraphicsPipeline layoutResult pipelineResult).1 =
        { layout := Option.none, handle := Option.none }) ∧
    ((createGraphicsPipeline layoutResult pipelineResult).1.handle ≠ Option.none ↔
      layoutResult ≠ Option.none ∧ pipelineResult ≠ Option.none) ∧
    (∀ l, layoutResult = Option.some l → pipelineResult = Option.none →
      (createGraphicsPipeline layoutResult pipelineResult).2.1 = [l] ∧
      (createGraphicsPipeline layoutResult pipelineResult).2.2 = []) := by
  cases layoutResult <;> cases pipelineResult <;>
    simp [createGraphicsPipeline]

/-- C5 witness: the amended theorem applied at a concrete failing input. -/
theorem createGraphicsPipeline_null_sentinel_on_failure_witness :
    (createGraphicsPipeline (Option.some 3) Option.none).1 =
      { layout := Option.none, handle := Option.none } :=
  (createGraphicsPipeline_null_sentinel_on_failure (Option.some 3) Option.none).1
    (Or.inr rfl)

/-! C8.  `destroySwapchain` releases everything and a second call is a no-op
that leaves the state unchanged; but the depth image handle and its
allocation member are not nulled (only the depth image view is), so the
"all released handles nulled or cleared" part of the claim fails. -/

/-- C8 counterexample: after destroying a fully-initialised swapchain state,
the depth image handle and its allocation still hold their old (released)
values instead of null. -/
theorem depth_image_handle_not_nulled :
    ((destroySwapchain
        { swapchainImageViews := [3, 4]
          renderCompleteSemaphores := [5, 6]
          swapchain := Option.some 2
          depthImage := Option.some 9
          depthImageView := Option.some 10
          depthImageAllocation := Option.some 11 }).1.depthImage = Option.some 9) ∧
    ((destroySwapchain
        { swapchainImageViews := [3, 4]
          renderCompleteSemaphores := [5, 6]
          swapchain := Option.some 2
          depthImage := Option.some 9
          depthImageView := Option.some 10
          depthImageAllocation := Option.some 11 }).1.depthImageAllocation = Option.some 11) ∧
    ¬ ((destroySwapchain
        { swapchainImageViews := [3, 4]
          renderCompleteSemaphores := [5, 6]
          swapchain := Option.some 2
          depthImage := Option.some 9
          depthImageView := Option.some 10
          depthImageAllocation := Option.some 11 }).1.depthImage = Option.none) := by
  decide

/-- C8 (amended): `destroySwapchain` releases every image view, every
render-complete semaphore, the swapchain handle, and — whenever the depth
view is non-null — the depth view and the depth image with its allocation; it
is safe and idempotent: a second call leaves the state identical and releases
nothing.  All released handles are nulled or cleared except the depth image
handle and its allocation, which retain their stale values (double release is
prevented by the null check on the depth image view). -/
theorem destroySwapchain_releases_all_and_idempotent
    (s : SwapchainState) (h v sem : Nat)
    (hsw : s.swapchain = Option.some h)
    (hv : v ∈ s.swapchainImageViews)
    (hsem : sem ∈ s.renderCompleteSemaphores) :
    Release.imageView v ∈ (destroySwapchain s).2 ∧
    Release.semaphore sem ∈ (destroySwapchain s).2 ∧
    Release.swapchainHandle h ∈ (destroySwapchain s).2 ∧
    (∀ dv, s.depthImageView = Option.some dv →
      Release.depthView dv ∈ (destroySwapchain s).2 ∧
      Release.depthImageAndAllocation (s.depthImage.getD 0)
          (s.depthImageAllocation.getD 0) ∈ (destroySwapchain s).2) ∧
    (destroySwapchain s).1.swapchainImageViews = [] ∧
    (destroySwapchain s).1.renderCompleteSemaphores = [] ∧
    (destroySwapchain s).1.swapchain = Option.none ∧
    (destroySwapchain s).1.depthImageView = Option.none ∧
    (destroySwapchain s).1.depthImage = s.depthImage ∧
    (destroySwapchain s).1.depthImageAllocation = s.depthImageAllocation ∧
    destroySwapchain (destroySwapchain s).1 = ((destroySwapchain s).1, []) := by
  cases hdv : s.depthImageView <;>
    simp [destroySwapchain, hsw, hdv, hv, hsem]

/-- C8 witness: the amended theorem applied at a concrete fully-initialised
state. -/
theorem destroySwapchain_releases_all_and_idempotent_witness :
    Release.imageView 3 ∈
      (destroySwapchain
        { swapchainImageViews := [3, 4]
          renderCompleteSemaphores := [5, 6]
          swapchain := Option.some 2
          depthImage := Option.some 9
          depthImageView := Option.some 10
          depthImageAllocation := Option.some 11 }).2 :=
  (destroySwapchain_releases_all_and_idempotent
    { swapchainImageViews := [3, 4]
      renderCompleteSemaphores := [5, 6]
      swapchain := Option.some 2
      depthImage := Option.some 9
      depthImageView := Option.some 10
      depthImageAllocation := Option.some 11 }
    2 3 5 rfl (by decide) (by decide)).1

/-! C9.  Swapchain creation configuration. -/

/-- C9: `createSwapchain` requests the platform-reported minimum image count,
the fixed 8-bit BGRA nonlinear-sRGB color format and strict FIFO
presentation; it creates one image view per swapchain image; and the depth
image is created with the fixed 32-bit float depth format, an extent equal to
the requested one (depth 1), a single mip level and array layer, and a
dedicated memory allocation. -/
theorem createSwapchain_config (caps : VkSurfaceCapabilities)
    (width height : Nat) (images : List Nat) (newView newSemaphore : Nat → Nat) :
    (createSwapchain caps width height images newView newSemaphore).swapchainInfo.minImageCount
        = caps.minImageCount ∧
    (createSwapchain caps width height images newView newSemaphore).swapchainInfo.imageFormat
        = VkFormat.b8g8r8a8Srgb ∧
    (createSwapchain caps width height images newView newSemaphore).swapchainInfo.imageColorSpace
        = VkColorSpace.srgbNonlinear ∧
    (createSwapchain caps width height images newView newSemaphore).swapchainInfo.presentMode
        = VkPresentMode.fifo ∧
    (createSwapchain caps width height images newView newSemaphore).swapchainImageViews.length
        = images.length ∧
    (createSwapchain caps width height images newView newSemaphore).depthCreateInfo.format
        = VkFormat.d32Sfloat ∧
    (createSwapchain caps width height images newView newSemaphore).depthCreateInfo.extent
        = { width := width, height := height, depth := 1 } ∧
    (createSwapchain caps width height images newView newSemaphore).depthAllocInfo.dedicatedMemory
        = true := by
  simp [createSwapchain, swapchainFormat, depthFormat]

/-! Shape lemmas for one render tick, shared by the frame-scheduler claims. -/

/-- Normal form of the trace of one render tick: the optional rebuild prefix,
then the timeline wait, the command-pool reset for the slot, the acquire, and
— unless acquisition reported out-of-date — recording, submission (signalling
the timeline to the tick's frame id) and presentation. -/
theorem render_trace_shape (env : Env) (s : AppState) :
    (render env s).2 =
      (if s.requireSwapchainRecreate then
        [Event.deviceWaitIdle, Event.destroySwapchainAction,
         Event.createSwapchainAction s.width s.height]
       else []) ++
      Event.waitTimeline (u64sub (s.timelineValue + 1) MaxFramesInFlight) ::
      Event.resetCommandPool (s.frameCounter % MaxFramesInFlight) ::
      Event.acquireImage env.acquire ::
      (match env.acquire with
       | AcquireResult.outOfDate => []
       | AcquireResult.suboptimal i =>
           tickBody (s.frameCounter % MaxFramesInFlight) (s.timelineValue + 1) i
             env.presentResult
       | AcquireResult.success i =>
           tickBody (s.frameCounter % MaxFramesInFlight) (s.timelineValue + 1) i
             env.presentResult) := by
  cases hacq : env.acquire <;> cases hre : s.requireSwapchainRecreate <;>
    simp [render, hacq, hre]

/-- Normal form of the state after one render tick: the rebuild flag records
whether acquisition failed to fully succeed, both counters advance by one
(the 32-bit one wrapping), and the swapchain generation advances exactly when
the tick performed the deferred rebuild. -/
theorem render_state_shape (env : Env) (s : AppState) :
    (render env s).1 =
      { requireSwapchainRecreate :=
          match env.acquire with
          | AcquireResult.success _ => false
          | AcquireResult.outOfDate => true
          | AcquireResult.suboptimal _ => true
        width := s.width
        height := s.height
        frameCounter := (s.frameCounter + 1) % U32
        timelineValue := s.timelineValue + 1
        swapchainGeneration :=
          if s.requireSwapchainRecreate then s.swapchainGeneration + 1
          else s.swapchainGeneration
        running := s.running } := by
  cases hacq : env.acquire <;> cases hre : s.requireSwapchainRecreate <;>
    simp [render, hacq, hre]

/-! C1.  Within the tick of frame `F` (with `F > MaxFramesInFlight`), the
slot's command pool is not reset and its command buffer is not recorded into
or submitted before the CPU-side wait on the timeline semaphore for value
`F - MaxFramesInFlight` has returned: every event preceding that wait in the
tick's trace is a rebuild action that touches no frame slot, and the wrapped
`uint64_t` wait target equals exactly `F - MaxFramesInFlight`. -/

/-- C1: in any render tick whose frame id `F = timelineValue + 1` exceeds
`MaxFramesInFlight`, the trace splits around the timeline wait for
`F - MaxFramesInFlight`, and no event before that wait touches a frame slot
(no command-pool reset, no recording, no submission). -/
theorem wait_precedes_slot_touch (env : Env) (s : AppState)
    (hM : MaxFramesInFlight < s.timelineValue + 1)
    (hU : s.timelineValue + 1 < U64) :
    ∃ pre post,
      (render env s).2 =
        pre ++ Event.waitTimeline (s.timelineValue + 1 - MaxFramesInFlight) :: post ∧
      ∀ e ∈ pre, touchesFrameSlot e = false := by
  have hsub : u64sub (s.timelineValue + 1) MaxFramesInFlight
      = s.timelineValue + 1 - MaxFramesInFlight :=
    u64sub_eq_sub _ _ (le_of_lt hM) hU
  refine ⟨if s.requireSwapchainRecreate then
      [Event.deviceWaitIdle, Event.destroySwapchainAction,
       Event.createSwapchainAction s.width s.height]
    else [],
    Event.resetCommandPool (s.frameCounter % MaxFramesInFlight) ::
      Event.acquireImage env.acquire ::
      (match env.acquire with
       | AcquireResult.outOfDate => []
       | AcquireResult.suboptimal i =>
           tickBody (s.frameCounter % MaxFramesInFlight) (s.timelineValue + 1) i
             env.presentResult
       | AcquireResult.success i =>
           tickBody (s.frameCounter % MaxFramesInFlight) (s.timelineValue + 1) i
             env.presentResult), ?_, ?_⟩
  · rw [render_trace_shape, hsub]
  · cases hre : s.requireSwapchainRecreate <;> simp [touchesFrameSlot]

/-- C1 witness: the theorem applied at a concrete state on frame id 7. -/
theorem wait_precedes_slot_touch_witness :
    ∃ pre post,
      (render allSuccess
        { requireSwapchainRecreate := true
          width := 1280
          height := 720
          frameCounter := 5
          timelineValue := 6
          swapchainGeneration := 0
          running := true }).2 =
        pre ++ Event.waitTimeline 5 :: post ∧
      ∀ e ∈ pre, touchesFrameSlot e = false :=
  wait_precedes_slot_touch allSuccess
    { requireSwapchainRecreate := true
      width := 1280
      height := 720
      frameCounter := 5
      timelineValue := 6
      swapchainGeneration := 0
      running := true }
    (by decide) (by norm_num [U64])

/-! C2.  The claim says that a present-time out-of-date/suboptimal result and
a platform size change both set the deferred rebuild flag.  Neither does in
the source: the result of `vkQueuePresentKHR` is ignored (`application.cpp`
line 1158 discards it), and the resize handler in `Application::run` (lines
143-148) only stores the new dimensions.  Only the acquire result sets the
flag; the amended theorem states exactly that, together with the deferred
rebuild at the top of the next tick. -/

/-- C2 counterexample: starting from the initial state (flag clear), a tick
whose present call reports out-of-date leaves the flag clear, and a
window-resize event also leaves the flag clear — contradicting the claim that
either occurrence sets the deferred rebuild flag. -/
theorem present_result_and_resize_leave_flag_clear :
    initState.requireSwapchainRecreate = false ∧
    (render { acquire := AcquireResult.success 0,
              presentResult := PresentResult.outOfDate }
        initState).1.requireSwapchainRecreate = false ∧
    (handleEvent initState (SDLEvent.windowResized 800 600)).requireSwapchainRecreate
      = false := by
  decide

/-- C2 (amended): the deferred rebuild flag is set exactly by an acquire-time
out-of-date or suboptimal result; the present call's result never affects the
state, and a platform size-change event only updates the stored width and
height.  When the flag is set, the swapchain is destroyed and recreated at
the top of the next tick, before anything else. -/
theorem invalidation_flag_sources (env : Env) (s : AppState)
    (w h idx : Nat) :
    ((env.acquire = AcquireResult.outOfDate ∨
        env.acquire = AcquireResult.suboptimal idx) →
      (render env s).1.requireSwapchainRecreate = true) ∧
    (∀ pr, (render { acquire := env.acquire, presentResult := pr } s).1
      = (render env s).1) ∧
    handleEvent s (SDLEvent.windowResized w h) = { s with width := w, height := h } ∧
    (s.requireSwapchainRecreate = true →
      ∃ t, (render env s).2 =
        Event.deviceWaitIdle :: Event.destroySwapchainAction ::
          Event.createSwapchainAction s.width s.height :: t) := by
  refine ⟨?_, ?_, rfl, ?_⟩
  · rintro (hacq | hacq) <;> rw [render_state_shape] <;> simp [hacq]
  · intro pr
    rw [render_state_shape, render_state_shape]
  · intro hre
    refine ⟨Event.waitTimeline (u64sub (s.timelineValue + 1) MaxFramesInFlight) ::
      Event.resetCommandPool (s.frameCounter % MaxFramesInFlight) ::
      Event.acquireImage env.acquire ::
      (match env.acquire with
       | AcquireResult.outOfDate => []
       | AcquireResult.suboptimal i =>
           tickBody (s.frameCounter % MaxFramesInFlight) (s.timelineValue + 1) i
             env.presentResult
       | AcquireResult.success i =>
           tickBody (s.frameCounter % MaxFramesInFlight) (s.timelineValue + 1) i
             env.presentResult), ?_⟩
    rw [render_trace_shape, hre]
    simp

/-- C2 witness: the amended theorem applied at a concrete flagged state with
an out-of-date acquire. -/
theorem invalidation_flag_sources_witness :
    (render { acquire := AcquireResult.outOfDate,
              presentResult := PresentResult.success }
        { requireSwapchainRecreate := true
          width := 800
          height := 600
          frameCounter := 3
          timelineValue := 4
          swapchainGeneration := 1
          running := true }).1.requireSwapchainRecreate = true :=
  (invalidation_flag_sources
    { acquire := AcquireResult.outOfDate, presentResult := PresentResult.success }
    { requireSwapchainRecreate := true
      width := 800
      height := 600
      frameCounter := 3
      timelineValue := 4
      swapchainGeneration := 1
      running := true }
    800 600 0).1 (Or.inl rfl)

/-! C3.  An out-of-date acquire on tick K aborts the tick without recording,
submission or presentation, sets the flag, and tick K+1 destroys and rebuilds
the swapchain — after a full device-idle wait — before attempting its own
acquire. -/

/-- C3: if acquisition on a tick reports out-of-date, that tick's trace
contains no recording, no submission and no present; the rebuild flag is set;
and the following tick begins with the device-idle wait, the swapchain
destruction and the recreation — its acquire only happening afterwards — and
completes exactly one rebuild cycle. -/
theorem acquire_out_of_date_aborts_and_rebuilds (env envNext : Env)
    (s : AppState) (hood : env.acquire = AcquireResult.outOfDate) :
    (∀ e ∈ (render env s).2,
      isRecord e = false ∧ isSubmit e = false ∧ isPresent e = false) ∧
    (render env s).1.requireSwapchainRecreate = true ∧
    (∃ t, (render envNext (render env s).1).2 =
        Event.deviceWaitIdle :: Event.destroySwapchainAction ::
          Event.createSwapchainAction (render env s).1.width
            (render env s).1.height :: t ∧
        Event.acquireImage envNext.acquire ∈ t ∧
        (∀ e ∈ [Event.deviceWaitIdle, Event.destroySwapchainAction,
            Event.createSwapchainAction (render env s).1.width
              (render env s).1.height], isAcquire e = false)) ∧
    (render envNext (render env s).1).1.swapchainGeneration =
      (render env s).1.swapchainGeneration + 1 := by
  have hflag : (render env s).1.requireSwapchainRecreate = true := by
    rw [render_state_shape]; simp [hood]
  refine ⟨?_, hflag, ?_, ?_⟩
  · rw [render_trace_shape, hood]
    cases hre : s.requireSwapchainRecreate <;>
      simp [isRecord, isSubmit, isPresent]
  · refine ⟨Event.waitTimeline
        (u64sub ((render env s).1.timelineValue + 1) MaxFramesInFlight) ::
      Event.resetCommandPool ((render env s).1.frameCounter % MaxFramesInFlight) ::
      Event.acquireImage envNext.acquire ::
      (match envNext.acquire with
       | AcquireResult.outOfDate => []
       | AcquireResult.suboptimal i =>
           tickBody ((render env s).1.frameCounter % MaxFramesInFlight)
             ((render env s).1.timelineValue + 1) i envNext.presentResult
       | AcquireResult.success i =>
           tickBody ((render env s).1.frameCounter % MaxFramesInFlight)
             ((render env s).1.timelineValue + 1) i envNext.presentResult),
      ?_, ?_, ?_⟩
    · rw [render_trace_shape envNext (render env s).1, hflag]
      simp
    · simp
    · simp [isAcquire]
  · rw [render_state_shape envNext (render env s).1, hflag]
    simp

/-- C3 witness: the theorem applied at the initial state with an out-of-date
acquire followed by a successful tick. -/
theorem acquire_out_of_date_aborts_and_rebuilds_witness :
    (render { acquire := AcquireResult.outOfDate,
              presentResult := PresentResult.success } initState).1.requireSwapchainRecreate
      = true :=
  (acquire_out_of_date_aborts_and_rebuilds
    { acquire := AcquireResult.outOfDate, presentResult := PresentResult.success }
    allSuccess initState rfl).2.1

/-! C4.  First-tick backpressure.  With `MaxFramesInFlight = 2` and
`timelineValue` starting at `MaxFramesInFlight - 1 = 1`, the timeline
semaphore is created with initial value 1; ticks 1 and 2 compute wait targets
0 and 1 (already satisfied), and tick 3 computes wait target 2 — the very
value tick 1's submission signals.  The `uint64_t` subtraction
`frameId - MaxFramesInFlight` never wraps because `frameId` never drops below
`MaxFramesInFlight`. -/

/-- C4: the wrapped wait-target subtraction equals plain subtraction whenever
`timelineValue ≥ MaxFramesInFlight - 1` (which the initial value satisfies
and every tick preserves), so it never wraps around; concretely, from the
initial state the first three ticks wait for timeline values 0, 1 and 2: the
first two targets do not exceed the semaphore's initial value 1, the third
exceeds it and equals exactly the value that tick 1's submission signals for
its frame. -/
theorem backpressure_first_ticks_and_no_wrap (env : Env) (s : AppState)
    (hlow : MaxFramesInFlight - 1 ≤ s.timelineValue)
    (hU : s.timelineValue + 1 < U64) :
    u64sub (s.timelineValue + 1) MaxFramesInFlight
        = s.timelineValue + 1 - MaxFramesInFlight ∧
    MaxFramesInFlight - 1 ≤ (render env s).1.timelineValue ∧
    initState.timelineValue = MaxFramesInFlight - 1 ∧
    (render allSuccess initState).2.head? = Option.some (Event.waitTimeline 0) ∧
    0 ≤ initialTimelineSemaphoreValue ∧
    (render allSuccess (render allSuccess initState).1).2.head?
        = Option.some (Event.waitTimeline 1) ∧
    1 ≤ initialTimelineSemaphoreValue ∧
    (render allSuccess (render allSuccess (render allSuccess initState).1).1).2.head?
        = Option.some (Event.waitTimeline 2) ∧
    initialTimelineSemaphoreValue < 2 ∧
    Event.submit 0 2 ∈ (render allSuccess initState).2 := by
  have hM : MaxFramesInFlight ≤ s.timelineValue + 1 := by
    have h2 : MaxFramesInFlight = 2 := by norm_num [MaxFramesInFlight]
    rw [h2] at hlow ⊢
    omega
  have htv : (render env s).1.timelineValue = s.timelineValue + 1 := by
    rw [render_state_shape]
  refine ⟨u64sub_eq_sub _ _ hM hU, ?_, by decide, by decide, by decide,
    by decide, by decide, by decide, by decide, by decide⟩
  rw [htv]
  omega

/-- C4 witness: the theorem applied at the initial state. -/
theorem backpressure_first_ticks_and_no_wrap_witness :
    u64sub (initState.timelineValue + 1) MaxFramesInFlight
        = initState.timelineValue + 1 - MaxFramesInFlight :=
  (backpressure_first_ticks_and_no_wrap allSuccess initState (by decide)
    (by norm_num [U64, initState, MaxFramesInFlight])).1

/-! C7.  The timeline counter advances by exactly one on every tick — also on
ticks aborted by an out-of-date acquire — and is never reset or decreased, so
after any N ticks it equals its initial value plus N. -/

/-- C7: every render tick increments `timelineValue` by exactly one,
whatever the driver returns (including an acquire-aborted tick), so after any
sequence of N ticks the counter equals the starting value plus N; in
particular, from the initial state it equals the initial value plus N. -/
theorem timeline_counter_adds_one_per_tick :
    (∀ env s, (render env s).1.timelineValue = s.timelineValue + 1) ∧
    (∀ envs s, (runTicks envs s).timelineValue = s.timelineValue + envs.length) ∧
    (∀ envs, (runTicks envs initState).timelineValue
        = initState.timelineValue + envs.length) := by
  have hstep : ∀ env s, (render env s).1.timelineValue = s.timelineValue + 1 := by
    intro env s
    rw [render_state_shape]
  have hrun : ∀ envs s,
      (runTicks envs s).timelineValue = s.timelineValue + envs.length := by
    intro envs
    induction envs with
    | nil => intro s; simp [runTicks]
    | cons e rest ih =>
        intro s
        simp only [runTicks, List.length_cons]
        rw [ih, hstep]
        omega
  exact ⟨hstep, hrun, fun envs => hrun envs initState⟩

/-! C10.  The slot index taken from the separate `frameCounter` agrees with
`frameId mod MaxFramesInFlight` on every tick: the congruence
`frameCounter ≡ timelineValue + 1 (mod MaxFramesInFlight)` holds initially
(0 ≡ MaxFramesInFlight mod MaxFramesInFlight) and is preserved because both
counters advance by one per tick — the 32-bit wrap of `frameCounter` is
harmless since `MaxFramesInFlight` divides `2 ^ 32`. -/

/-- C10: under the congruence `frameCounter ≡ timelineValue + 1
(mod MaxFramesInFlight)` — satisfied by the initial values and preserved by
every tick, both counters being incremented exactly once per tick — the slot
a tick uses (and whose command pool it resets) equals the tick's frame id
modulo `MaxFramesInFlight`. -/
theorem slot_index_agrees_with_frame_id (env : Env) (s : AppState)
    (hinv : slotInvariant s) :
    slotInvariant initState ∧
    usedSlot s = (s.timelineValue + 1) % MaxFramesInFlight ∧
    Event.resetCommandPool (usedSlot s) ∈ (render env s).2 ∧
    (render env s).1.frameCounter = (s.frameCounter + 1) % U32 ∧
    (render env s).1.timelineValue = s.timelineValue + 1 ∧
    slotInvariant (render env s).1 := by
  have hfc : (render env s).1.frameCounter = (s.frameCounter + 1) % U32 := by
    rw [render_state_shape]
  have htv : (render env s).1.timelineValue = s.timelineValue + 1 := by
    rw [render_state_shape]
  refine ⟨by unfold slotInvariant; decide, hinv, ?_, hfc, htv, ?_⟩
  · rw [render_trace_shape]
    simp [usedSlot]
  · unfold slotInvariant at hinv ⊢
    rw [hfc, htv]
    have h32 : U32 = 4294967296 := by norm_num [U32]
    have hM2 : MaxFramesInFlight = 2 := by norm_num [MaxFramesInFlight]
    rw [h32, hM2]
    rw [hM2] at hinv
    omega

/-- C10 witness: the theorem applied at the initial state, where the
congruence holds by computation. -/
theorem slot_index_agrees_with_frame_id_witness :
    usedSlot initState = (initState.timelineValue + 1) % MaxFramesInFlight :=
  (slot_index_agrees_with_frame_id allSuccess initState (by unfold slotInvariant; decide)).2.1

end ModernVulkan
